import Mathlib

/-!
Verification of FangraphStatsGUI: a shallow embedding of `gui.py` (a Qt CSV
viewer with a selection-driven two-group mean summary) and `excel_export.py`
(a SQLite-to-spreadsheet batch exporter), with theorems settling the spec's
claims about them.

Modelling conventions:
* Numeric cell values are rationals (ℚ); pandas `Series.mean` of an empty
  series is NaN, modelled as `none : Option ℚ`.
* Python attributes that may not yet exist on the object (`self._dataframe`,
  `self._selection_indexes`) are `Option` fields, `none` meaning the
  attribute is unset so that reading it raises `AttributeError`.
* Each Python handler becomes `GuiState → GuiState × Option PyErr`: the
  returned state reflects all field writes performed before a raise (Python
  exceptions do not roll back earlier assignments), and the second component
  is `some e` when the handler terminates by raising `e`.
* Qt behaviour that the handlers rely on is modelled where the code uses it:
  `setModel` gives the view a fresh (empty) selection model;
  `clearSelection` emits `selectionChanged` synchronously exactly when the
  view selection actually changes; `selectedIndexes` reports one entry per
  selected cell, so a selected row appears once per column.
-/

/-- Exceptions a handler can raise. -/
inductive PyErr where
  | attributeError
  | indexError
  | parseError (msg : String)
  | notADirectoryError
  | fileNotFoundError
  deriving DecidableEq, Repr

/-- The in-memory dataset: one row per CSV record, holding the two fixed
numeric group columns `Group_1` and `Group_2` (the only columns any claim
computes with; further columns would ride along unused). -/
structure DataFrame where
  rows : List (ℚ × ℚ)
  deriving DecidableEq, Repr

/-- Column `Group_1` of the dataset. -/
def DataFrame.group1 (df : DataFrame) : List ℚ := df.rows.map Prod.fst

/-- Column `Group_2` of the dataset. -/
def DataFrame.group2 (df : DataFrame) : List ℚ := df.rows.map Prod.snd

/-- `len(df)`: the number of rows. -/
def DataFrame.numRows (df : DataFrame) : ℕ := df.rows.length

/-- State of the `MainWindow` object together with the toolkit state its
handlers read and write. -/
structure GuiState where
  /-- `self._file`: path of the last file handed to `import_data`. -/
  file : Option String
  /-- `self._dataframe`; `none` = attribute never assigned (reading raises
  `AttributeError`).  The only assignment is `pd.read_csv(path)`, so when
  set it always holds an actual `pd.DataFrame`. -/
  dataframe : Option DataFrame
  /-- `self._selected_rows`: written in `__init__` and `clear_selection`,
  never read anywhere. -/
  selectedRows : List ℕ
  /-- `self._selection_indexes`; `none` = attribute never assigned.  Only
  `selected_rows_changed` writes it. -/
  selectionIndexes : Option (List ℕ)
  /-- The table view's current selection as reported by
  `self.table_widget.selectedIndexes()`: one `(row, column)` entry per
  selected cell. -/
  viewSelectedCells : List (ℕ × ℕ)
  /-- Whether `selection_model.selectionChanged` is connected to
  `selected_rows_changed` (done in `load_dataframe`). -/
  connected : Bool
  /-- Text of `self.results_widget` (the read-only results area). -/
  displayText : String
  /-- Text of `self.status_bar`. -/
  statusText : String
  /-- Messages shown so far through `QErrorMessage.showMessage`. -/
  dialogs : List String
  deriving DecidableEq, Repr

/-- `pandas.Series.mean`: NaN (here `none`) on an empty series, otherwise
the sum divided by the length. -/
def seriesMean (xs : List ℚ) : Option ℚ :=
  if xs = [] then none else some (xs.sum / xs.length)

/-- `df.iloc[idxs]` for a list of positional indices: raises `IndexError`
when any index is out of bounds, otherwise gathers the rows in the order of
`idxs`.  (The default row fed to `getD` is never reached under the bound
checked first.) -/
def dfIloc (df : DataFrame) (idxs : List ℕ) : Except PyErr DataFrame :=
  if idxs.all (fun i => i < df.rows.length) then
    .ok ⟨idxs.map (fun i => df.rows.getD i (0, 0))⟩
  else
    .error .indexError

/-- The sub-dataframe `df.iloc[idxs]` yields on in-range indices: row `i`
of the result is row `idxs[i]` of `df`. -/
def gatherDF (df : DataFrame) (idxs : List ℕ) : DataFrame :=
  ⟨idxs.map (fun i => df.rows.getD i (0, 0))⟩

/-- `self.selection()`: `self._dataframe.iloc[self._selection_indexes]`.
Reading either unset attribute raises `AttributeError`. -/
def GuiState.selection (s : GuiState) : Except PyErr DataFrame :=
  match s.dataframe, s.selectionIndexes with
  | some df, some idxs => dfIloc df idxs
  | _, _ => .error .attributeError

/-- `self.grp1_avg()`: `float(self.selection()['Group_1'].mean())`.  NaN for
an empty selection is `none`. -/
def GuiState.grp1_avg (s : GuiState) : Except PyErr (Option ℚ) :=
  (s.selection).map (fun sub => seriesMean sub.group1)

/-- `self.grp2_avg()`: `float(self.selection()['Group_2'].mean())`. -/
def GuiState.grp2_avg (s : GuiState) : Except PyErr (Option ℚ) :=
  (s.selection).map (fun sub => seriesMean sub.group2)

/-- `self.display_results(text)`: replaces the contents of the read-only
results widget. -/
def display_results (s : GuiState) (text : String) : GuiState :=
  { s with displayText := text }

/-- Stand-in for `str(pandas_dataframe)`: the exact textual layout pandas
prints is immaterial to every claim, only that the rendering is a function
of the rendered sub-dataframe. -/
def renderDF (df : DataFrame) : String :=
  toString df.group1 ++ " " ++ toString df.group2

/-- `'%f' % x` for the mean value: `float('nan')` prints as `nan`; the exact
decimal digit string of a finite value is immaterial to every claim. -/
def formatAvg : Option ℚ → String
  | none => "nan"
  | some q => toString q

/-- The text block built at lines 98-101 of `gui.py`. -/
def summaryReport (sub : DataFrame) (a1 a2 : Option ℚ) : String :=
  renderDF sub ++ "\n\n----Selected Averages----\nAverage Group 1 : " ++
    formatAvg a1 ++ "\nAverage Group 2 : " ++ formatAvg a2

/-- `list(set([row.row() for row in selection]))`: the per-cell row numbers,
deduplicated.  (Python's `set` iteration order is arbitrary; `List.dedup`
fixes one order.  Every claim about the result is order-insensitive.) -/
def dedupRows (cells : List (ℕ × ℕ)) : List ℕ :=
  (cells.map Prod.fst).dedup

/-- `self.selected_rows_changed()`: recompute `_selection_indexes` from the
view's selected cells, print the selection (which evaluates
`self.selection()` and can raise), update the status bar, and replace the
results text with the summary report. -/
def selected_rows_changed (s : GuiState) : GuiState × Option PyErr :=
  match ({ s with selectionIndexes := some (dedupRows s.viewSelectedCells) }
      : GuiState).selection with
  | .error e =>
    ({ s with selectionIndexes := some (dedupRows s.viewSelectedCells) },
     some e)
  | .ok sub =>
    (display_results
      { s with
          selectionIndexes := some (dedupRows s.viewSelectedCells)
          statusText :=
            "Selected Rows: " ++ toString (dedupRows s.viewSelectedCells) }
      (summaryReport sub (seriesMean sub.group1) (seriesMean sub.group2)),
     none)

/-- `self.clear_selection()`: reset `_selected_rows`, clear the view
selection (which synchronously emits `selectionChanged`, hence runs
`selected_rows_changed`, exactly when the view selection was non-empty and
the signal is connected), then blank the results text; a raise inside the
emitted handler escapes before the blanking. -/
def clear_selection (s : GuiState) : GuiState × Option PyErr :=
  if s.viewSelectedCells = [] then
    (display_results { s with selectedRows := [] } "", none)
  else if s.connected then
    match selected_rows_changed
        { s with selectedRows := [], viewSelectedCells := [] } with
    | (s3, some e) => (s3, some e)
    | (s3, none) => (display_results s3 "", none)
  else
    (display_results { s with selectedRows := [], viewSelectedCells := [] } "",
     none)

/-- `self.import_data(path)`: `self._dataframe = pd.read_csv(path)`.  The
read either yields a dataframe or raises (missing path, malformed file); a
raise happens before the assignment, so `_dataframe` keeps its prior value,
and the handler shows no dialog. -/
def import_data (s : GuiState) (readResult : Except String DataFrame) :
    GuiState × Option PyErr :=
  match readResult with
  | .ok df => ({ s with dataframe := some df }, none)
  | .error msg => (s, some (.parseError msg))

/-- The guard `isinstance(self._dataframe, pd.DataFrame)`: reading an unset
attribute raises before the test; when set, the value is always a
`pd.DataFrame` (the only assignment is `pd.read_csv`), so the test is true. -/
def isinstanceDataFrame : Option DataFrame → Except PyErr Bool
  | none => .error .attributeError
  | some _ => .ok true

/-- `self.load_dataframe()`: on a dataframe, install a fresh `PandasModel`
(`setModel` gives the view a new, empty selection model) and connect
`selectionChanged`; the `else` branch shows the `No data loaded!` dialog. -/
def load_dataframe (s : GuiState) : GuiState × Option PyErr :=
  match isinstanceDataFrame s.dataframe with
  | .error e => (s, some e)
  | .ok true => ({ s with viewSelectedCells := [], connected := true }, none)
  | .ok false => ({ s with dialogs := s.dialogs ++ ["No data loaded!"] }, none)

/-- The accepted branch of `self.import_dialog()`: record the chosen path,
read the CSV, then load the dataframe into the view.  A raise inside
`import_data` escapes the slot with `_file` already updated. -/
def import_dialog_accepted (s : GuiState) (path : String)
    (readResult : Except String DataFrame) : GuiState × Option PyErr :=
  let s1 := { s with file := some path }
  match import_data s1 readResult with
  | (s2, some e) => (s2, some e)
  | (s2, none) => load_dataframe s2

/-- The window state right after `setupUI()`: no file, no dataframe, the
results widget constructed as `QTextEdit('Results')`, empty status bar, no
dialogs shown, no selection anywhere.  (`_selected_rows` is assigned at the
end of `__init__`; nothing reads it before that, so it is carried as `[]`
from the start.) -/
def setupUIState : GuiState :=
  { file := none
    dataframe := none
    selectedRows := []
    selectionIndexes := none
    viewSelectedCells := []
    connected := false
    displayText := "Results"
    statusText := ""
    dialogs := [] }

/-- `MainWindow.__init__`: `setupUI`, store `_file`, and when a file was
passed on the command line run `import_data` then `load_dataframe`; finally
set `_selected_rows = []`.  A raise inside `import_data` escapes the
constructor. -/
def mkMainWindow : Option (String × Except String DataFrame) →
    GuiState × Option PyErr
  | none => ({ setupUIState with selectedRows := [] }, none)
  | some (path, readResult) =>
    let s1 := { setupUIState with file := some path }
    match import_data s1 readResult with
    | (s2, some e) => (s2, some e)
    | (s2, none) =>
      match load_dataframe s2 with
      | (s3, some e) => (s3, some e)
      | (s3, none) => ({ s3 with selectedRows := [] }, none)

/-- The user changes the row selection in the table view: the toolkit stores
the new per-cell selection and, when the signal is connected, synchronously
runs `selected_rows_changed`.  (Without a model there is no selection model,
so no selection can be made; the unconnected branch keeps the state.) -/
def user_select (s : GuiState) (cells : List (ℕ × ℕ)) :
    GuiState × Option PyErr :=
  if s.connected then
    selected_rows_changed { s with viewSelectedCells := cells }
  else (s, none)

/-- Number of rows the view can offer for selection: `PandasModel.rowCount`
of the displayed dataset, `0` without a model. -/
def rowsOf : Option DataFrame → ℕ
  | none => 0
  | some df => df.numRows

/-- A cell the toolkit can report as selected: its row is a valid row of the
currently displayed dataset. -/
def cellOk (s : GuiState) (c : ℕ × ℕ) : Prop :=
  c.1 < rowsOf s.dataframe

instance (s : GuiState) (c : ℕ × ℕ) : Decidable (cellOk s c) := by
  unfold cellOk
  infer_instance

/-- The states the running program can reach: the fresh window (with or
without a `--file` preload), then any sequence of completed user events.  A
handler that raises aborts the PyQt5 process, so only non-raising
transitions produce further states; a cancelled import dialog leaves the
state unchanged. -/
inductive Reachable : GuiState → Prop
  | init : Reachable (mkMainWindow none).1
  | initFile (path : String) (df : DataFrame) :
      Reachable (mkMainWindow (some (path, .ok df))).1
  | importAccepted {s s' : GuiState} (path : String)
      (readResult : Except String DataFrame) : Reachable s →
      import_dialog_accepted s path readResult = (s', none) → Reachable s'
  | select {s s' : GuiState} (cells : List (ℕ × ℕ)) : Reachable s →
      s.connected = true → (∀ c ∈ cells, cellOk s c) →
      user_select s cells = (s', none) → Reachable s'
  | clear {s s' : GuiState} : Reachable s →
      clear_selection s = (s', none) → Reachable s'

/-!
Embedding of `excel_export.py`: remove the previous run's output files, then
for each configured day interval copy every table of the interval's SQLite
database into a sheet of a workbook.
-/

/-- One entry of the current working directory. -/
structure FSEntry where
  name : String
  isDir : Bool
  deriving DecidableEq, Repr

/-- Whether a file name matches the glob pattern `fangraph_*days.xlsx`
(`*` matches any, possibly empty, character sequence, so the prefix and the
suffix must both fit without overlapping). -/
def matchesOutputPattern (n : String) : Bool :=
  "fangraph_".data.isPrefixOf n.data && "days.xlsx".data.isSuffixOf n.data &&
    18 ≤ n.data.length

/-- `shutil.rmtree(name)`: deletes a directory tree; on a regular file it
raises `NotADirectoryError`. -/
def rmtree (fs : List FSEntry) (name : String) : Except PyErr (List FSEntry) :=
  match fs.find? (fun e => e.name = name) with
  | none => .error .fileNotFoundError
  | some e =>
    if e.isDir then .ok (fs.filter (fun e2 => ¬ e2.name = name))
    else .error .notADirectoryError

/-- Lines 22-23 of `excel_export.py`: `for f in glob('fangraph_*days.xlsx'):
shutil.rmtree(f)`.  The glob lists the matching entries of the working
directory; the loop stops at the first raise. -/
def removeStaleOutputs (fs : List FSEntry) : Except PyErr (List FSEntry) :=
  (fs.filter (fun e => matchesOutputPattern e.name)).foldlM
    (fun acc e => rmtree acc e.name) fs

/-- One SQLite table: its name, its column names and its data rows (cell
values carried as their rendered text; the cell type is immaterial). -/
structure Table where
  name : String
  header : List String
  dataRows : List (List String)
  deriving DecidableEq, Repr

/-- A SQLite database: its tables, in `sqlite_master` enumeration order. -/
structure SQLiteDB where
  tables : List Table
  deriving DecidableEq, Repr

/-- `pd.read_sql("SELECT name FROM sqlite_master WHERE type='table'")`:
the table names in enumeration order. -/
def SQLiteDB.tableNames (db : SQLiteDB) : List String :=
  db.tables.map Table.name

/-- `pd.read_sql_query("SELECT * FROM " + n)`: the table named `n`. -/
def SQLiteDB.readTable (db : SQLiteDB) (n : String) : Option Table :=
  db.tables.find? (fun t => t.name = n)

/-- One sheet of the output workbook: its name and its written cell grid. -/
structure Sheet where
  name : String
  grid : List (List String)
  deriving DecidableEq, Repr

/-- `dft.to_excel(writer, sheet_name=name, index=False)`: the sheet gets the
table's name; the grid is the header row followed by every data row, with no
index column prepended. -/
def toExcelSheet (t : Table) : Sheet :=
  { name := t.name, grid := t.header :: t.dataRows }

/-- The output workbook: its sheets in the order they were written. -/
structure Workbook where
  sheets : List Sheet
  deriving DecidableEq, Repr

/-- The loop at lines 37-41 of `excel_export.py`: for each table name, read
the table back with `SELECT *` and append it to the workbook as a sheet.  A
name the database could not serve would raise (`none`); the loop stops
there. -/
def writeSheets (db : SQLiteDB) : List String → Option (List Sheet)
  | [] => some []
  | n :: ns =>
    match db.readTable n with
    | none => none
    | some t =>
      match writeSheets db ns with
      | none => none
      | some rest => some (toExcelSheet t :: rest)

/-- Lines 32-43 of `excel_export.py` for one interval: enumerate the table
names and copy every table into a sheet of the interval's workbook. -/
def exportInterval (db : SQLiteDB) : Option Workbook :=
  (writeSheets db db.tableNames).map Workbook.mk

/-- The output file name for interval `day`:
`'fangraph_{}days.xlsx'.format(day)`. -/
def outputFileName (day : ℕ) : String :=
  "fangraph_" ++ toString day ++ "days.xlsx"

/-- The whole script run: remove stale outputs, then export every interval
of `num_days` in order (the database for interval `day` is supplied as the
second component). -/
def runExport (fs : List FSEntry) (intervals : List (ℕ × SQLiteDB)) :
    Except PyErr (List (String × Option Workbook)) :=
  (removeStaleOutputs fs).map (fun _ =>
    intervals.map (fun p => (outputFileName p.1, exportInterval p.2)))

/-!
Spec-side definition and concrete scenario states used by the theorems.
-/

/-- Written from the spec's words, for comparison with the code: the
arithmetic mean of the values of column `col` at the indices in the set `S`
(section 8: the reported mean of a group column equals the arithmetic mean
of that column's values at indices in S). -/
def specArithMean (col : List ℚ) (S : Finset ℕ) : ℚ :=
  (∑ i ∈ S, col.getD i 0) / S.card

/-- The spec's section 8 scenario dataset: `Group_1=[1,2,3]`,
`Group_2=[10,20,30]`. -/
def exampleDF : DataFrame := ⟨[(1, 10), (2, 20), (3, 30)]⟩

/-- A replacement dataset with a single row, used for re-import scenarios. -/
def exampleDF2 : DataFrame := ⟨[(5, 50)]⟩

/-- The window right after launching with `--file data.csv` on the scenario
dataset. -/
def exampleLoaded : GuiState :=
  (mkMainWindow (some ("data.csv", .ok exampleDF))).1

/-- The window after the user selects rows 0 and 1 (the toolkit reports one
entry per selected cell, so each row appears once per column). -/
def exampleSelected : GuiState :=
  (user_select exampleLoaded [(0, 0), (0, 1), (1, 0), (1, 1)]).1

/-- The window after a subsequent import replaces the dataset with the
one-row `exampleDF2`. -/
def exampleReimported : GuiState :=
  (import_dialog_accepted exampleSelected "data2.csv" (.ok exampleDF2)).1

/-- The window after clicking Clear in `exampleReimported`. -/
def exampleCleared : GuiState := (clear_selection exampleReimported).1

/-- A two-table database for the export scenario. -/
def exampleDB : SQLiteDB :=
  ⟨[⟨"hitters", ["name", "hr"], [["a", "3"], ["b", "7"]]⟩,
    ⟨"pitchers", ["name", "era"], [["c", "2.5"]]⟩]⟩

/-!
Helper lemmas.
-/

/-- `df.iloc` succeeds on in-range indices and gathers the indexed rows. -/
theorem dfIloc_of_valid (df : DataFrame) (idxs : List ℕ)
    (h : ∀ i ∈ idxs, i < df.numRows) :
    dfIloc df idxs = .ok (gatherDF df idxs) := by
  have hall : idxs.all (fun i => decide (i < df.rows.length)) = true := by
    simp only [List.all_eq_true, decide_eq_true_eq]
    exact h
  simp [dfIloc, hall, gatherDF]

/-- Evaluating `self.selection()` when both attributes are set and the
indices are in range. -/
theorem selection_of_valid (s : GuiState) (df : DataFrame) (S : List ℕ)
    (hdf : s.dataframe = some df) (hsel : s.selectionIndexes = some S)
    (h : ∀ i ∈ S, i < df.numRows) :
    s.selection = .ok (gatherDF df S) := by
  unfold GuiState.selection
  rw [hdf, hsel]
  exact dfIloc_of_valid df S h

/-- The code's mean of a nonempty deduplicated index list agrees with the
spec's arithmetic mean over the index set. -/
theorem seriesMean_map_eq_specArithMean (col : List ℚ) (S : List ℕ)
    (hnd : S.Nodup) (hne : S ≠ []) :
    seriesMean (S.map fun i => col.getD i 0) =
      some (specArithMean col S.toFinset) := by
  have hmapne : S.map (fun i => col.getD i 0) ≠ [] := by
    simpa using hne
  unfold seriesMean specArithMean
  rw [if_neg hmapne]
  have hsum : (S.map fun i => col.getD i 0).sum =
      ∑ i ∈ S.toFinset, col.getD i 0 :=
    (List.sum_toFinset _ hnd).symm
  have hcard : (S.toFinset.card : ℚ) =
      ((S.map fun i => col.getD i 0).length : ℚ) := by
    rw [List.card_toFinset, hnd.dedup, List.length_map]
  rw [hsum, hcard]

/-- Projecting a column out of the gathered rows is gathering out of the
projected column. -/
theorem seriesMean_gather (rows : List (ℚ × ℚ)) (S : List ℕ) (f : ℚ × ℚ → ℚ)
    (hnd : S.Nodup) (hne : S ≠ []) (h : ∀ i ∈ S, i < rows.length) :
    seriesMean ((S.map fun i => rows.getD i (0, 0)).map f) =
      some (specArithMean (rows.map f) S.toFinset) := by
  rw [List.map_map]
  have hpt : S.map (f ∘ fun i => rows.getD i (0, 0)) =
      S.map fun i => (rows.map f).getD i 0 := by
    apply List.map_congr_left
    intro i hi
    show f (rows.getD i (0, 0)) = (rows.map f).getD i 0
    rw [List.getD_eq_getElem _ _ (h i hi),
        List.getD_eq_getElem _ _ (by simpa using h i hi), List.getElem_map]
  rw [hpt]
  exact seriesMean_map_eq_specArithMean (rows.map f) S hnd hne

/-- Fields `selected_rows_changed` never touches (the dataset, the view
selection, the connection), and the one it always sets (the stored
selection, recomputed from the view's cells in both branches). -/
theorem selected_rows_changed_fields (s : GuiState) :
    (selected_rows_changed s).1.dataframe = s.dataframe ∧
    (selected_rows_changed s).1.viewSelectedCells = s.viewSelectedCells ∧
    (selected_rows_changed s).1.connected = s.connected ∧
    (selected_rows_changed s).1.selectionIndexes =
      some (dedupRows s.viewSelectedCells) := by
  unfold selected_rows_changed
  split
  · exact ⟨rfl, rfl, rfl, rfl⟩
  · exact ⟨rfl, rfl, rfl, rfl⟩

/-- On a state whose view selection is valid for the loaded dataset,
`selected_rows_changed` completes without raising: it stores the
deduplicated row indices, prints the gathered selection, updates the status
bar and replaces the results text with the summary report. -/
theorem selected_rows_changed_ok (s : GuiState) (df : DataFrame)
    (hdf : s.dataframe = some df)
    (hvalid : ∀ i ∈ dedupRows s.viewSelectedCells, i < df.numRows) :
    selected_rows_changed s =
      ({ s with
          selectionIndexes := some (dedupRows s.viewSelectedCells)
          statusText :=
            "Selected Rows: " ++ toString (dedupRows s.viewSelectedCells)
          displayText :=
            summaryReport (gatherDF df (dedupRows s.viewSelectedCells))
              (seriesMean (gatherDF df (dedupRows s.viewSelectedCells)).group1)
              (seriesMean (gatherDF df (dedupRows s.viewSelectedCells)).group2)
        }, none) := by
  unfold selected_rows_changed
  rw [selection_of_valid
    { s with selectionIndexes := some (dedupRows s.viewSelectedCells) }
    df (dedupRows s.viewSelectedCells) hdf rfl hvalid]
  rfl

/-- Whatever branch `clear_selection` takes, the resulting view selection is
empty. -/
theorem clear_selection_viewcells (s : GuiState) :
    (clear_selection s).1.viewSelectedCells = [] := by
  unfold clear_selection
  split
  · rename_i hv
    exact hv ▸ rfl
  · split
    · cases hh : selected_rows_changed
        { s with selectedRows := [], viewSelectedCells := [] } with
      | mk s3 e =>
        have h3 : s3.viewSelectedCells = [] := by
          have := (selected_rows_changed_fields
            { s with selectedRows := [], viewSelectedCells := [] }).2.1
          rw [hh] at this
          exact this
        cases e
        · exact h3
        · exact h3
    · rfl

/-- `clear_selection` never touches the dataset. -/
theorem clear_selection_dataframe (s : GuiState) :
    (clear_selection s).1.dataframe = s.dataframe := by
  unfold clear_selection
  split
  · rfl
  · split
    · cases hh : selected_rows_changed
        { s with selectedRows := [], viewSelectedCells := [] } with
      | mk s3 e =>
        have h3 : s3.dataframe = s.dataframe := by
          have := (selected_rows_changed_fields
            { s with selectedRows := [], viewSelectedCells := [] }).1
          rw [hh] at this
          exact this
        cases e
        · exact h3
        · exact h3
    · rfl

/-- Invariant of the running program: every cell the view reports as
selected lies inside the currently loaded dataset (each import empties the
view selection along with replacing the model, and the toolkit only ever
reports cells of the current model). -/
theorem reachable_view_cells_ok {s : GuiState} (hs : Reachable s) :
    ∀ c ∈ s.viewSelectedCells, cellOk s c := by
  induction hs with
  | init =>
    intro c hc
    have hnil : (mkMainWindow none).1.viewSelectedCells = [] := rfl
    rw [hnil] at hc
    cases hc
  | initFile path df =>
    intro c hc
    have hnil :
        (mkMainWindow (some (path, .ok df))).1.viewSelectedCells = [] := rfl
    rw [hnil] at hc
    cases hc
  | importAccepted path readResult hs hEq ih =>
    rename_i s s'
    cases readResult with
    | error msg =>
      cases (show (some (PyErr.parseError msg) : Option PyErr) = none from
        congrArg Prod.snd hEq)
    | ok df =>
      have hEq2 : ({ s with
          file := some path
          dataframe := some df
          viewSelectedCells := []
          connected := true } : GuiState) = s' :=
        congrArg Prod.fst hEq
      intro c hc
      rw [← hEq2] at hc
      cases hc
  | select cells hs hconn hcells hEq ih =>
    rename_i s s'
    have hrun : selected_rows_changed { s with viewSelectedCells := cells } =
        (s', none) := by
      have : user_select s cells =
          selected_rows_changed { s with viewSelectedCells := cells } := by
        unfold user_select
        rw [hconn]
        rfl
      rw [← this]
      exact hEq
    have hview : s'.viewSelectedCells = cells := by
      have := (selected_rows_changed_fields
        { s with viewSelectedCells := cells }).2.1
      rw [hrun] at this
      exact this
    have hdf : s'.dataframe = s.dataframe := by
      have := (selected_rows_changed_fields
        { s with viewSelectedCells := cells }).1
      rw [hrun] at this
      exact this
    intro c hc
    rw [hview] at hc
    unfold cellOk
    rw [hdf]
    exact hcells c hc
  | clear hs hEq ih =>
    rename_i s s'
    intro c hc
    have hview : s'.viewSelectedCells = [] := by
      have := clear_selection_viewcells s
      rw [hEq] at this
      exact this
    rw [hview] at hc
    cases hc

/-!
Claim theorems.
-/

/-- C1: for every loaded dataset and every non-empty deduplicated selection
of valid row indices held as the current selection, `grp1_avg` returns the
arithmetic mean of the `Group_1` values at the selected indices and
`grp2_avg` the arithmetic mean of the `Group_2` values there. -/
theorem grp_avgs_are_selection_means (s : GuiState) (df : DataFrame)
    (S : List ℕ) (hdf : s.dataframe = some df)
    (hsel : s.selectionIndexes = some S) (hnd : S.Nodup) (hne : S ≠ [])
    (hvalid : ∀ i ∈ S, i < df.numRows) :
    s.grp1_avg = .ok (some (specArithMean df.group1 S.toFinset)) ∧
    s.grp2_avg = .ok (some (specArithMean df.group2 S.toFinset)) := by
  have hsel' := selection_of_valid s df S hdf hsel hvalid
  constructor
  · unfold GuiState.grp1_avg
    rw [hsel']
    show Except.ok (seriesMean ((S.map fun i => df.rows.getD i (0, 0)).map
      Prod.fst)) = _
    rw [seriesMean_gather df.rows S Prod.fst hnd hne hvalid]
    rfl
  · unfold GuiState.grp2_avg
    rw [hsel']
    show Except.ok (seriesMean ((S.map fun i => df.rows.getD i (0, 0)).map
      Prod.snd)) = _
    rw [seriesMean_gather df.rows S Prod.snd hnd hne hvalid]
    rfl

/-- With pairwise distinct table names, `SELECT * FROM t` for a name listed
by `sqlite_master` returns exactly the table of that name. -/
theorem readTable_self (tables : List Table)
    (hnd : (tables.map Table.name).Nodup) :
    ∀ t ∈ tables, (SQLiteDB.mk tables).readTable t.name = some t := by
  induction tables with
  | nil => intro t ht; cases ht
  | cons a rest ih =>
    have hna : a.name ∉ rest.map Table.name :=
      (List.nodup_cons.mp (by simpa using hnd)).1
    have hnd' : (rest.map Table.name).Nodup :=
      (List.nodup_cons.mp (by simpa using hnd)).2
    intro t ht
    rcases List.mem_cons.mp ht with h1 | h2
    · subst h1
      simp [SQLiteDB.readTable, List.find?]
    · have hne : ¬ (a.name = t.name) := by
        intro hEq
        exact hna (hEq ▸ List.mem_map_of_mem Table.name h2)
      have := ih hnd' t h2
      simpa [SQLiteDB.readTable, List.find?, hne] using this

/-- The table loop writes one sheet per enumerated table, in order. -/
theorem writeSheets_of_readTable (db : SQLiteDB) (ts : List Table)
    (h : ∀ t ∈ ts, db.readTable t.name = some t) :
    writeSheets db (ts.map Table.name) = some (ts.map toExcelSheet) := by
  induction ts with
  | nil => rfl
  | cons a rest ih =>
    simp only [List.map_cons, writeSheets]
    rw [h a (List.mem_cons_self a rest),
      ih (fun t ht => h t (List.mem_cons_of_mem _ ht))]

/-- C2: one run of the export flow (from a directory with no stale output
files, so the removal loop completes) yields, for every interval in the
configured list whose database holds tables T1..Tk with the distinct names
SQLite guarantees, a workbook of exactly k sheets, one per table in
enumeration order, each named after its table and holding the header row
followed by all data rows, with no added index column. -/
theorem run_export_copies_all_tables (fs : List FSEntry)
    (intervals : List (ℕ × SQLiteDB))
    (hclean : ∀ e ∈ fs, matchesOutputPattern e.name = false)
    (hnd : ∀ p ∈ intervals, (p.2.tables.map Table.name).Nodup) :
    runExport fs intervals = .ok (intervals.map fun p =>
      (outputFileName p.1, some (Workbook.mk (p.2.tables.map toExcelSheet)))) ∧
    (∀ db : SQLiteDB,
      (db.tables.map toExcelSheet).length = db.tables.length ∧
      (db.tables.map toExcelSheet).map Sheet.name = db.tables.map Table.name) ∧
    (∀ t : Table, (toExcelSheet t).name = t.name ∧
      (toExcelSheet t).grid = t.header :: t.dataRows) := by
  refine ⟨?_, fun db => ⟨List.length_map _ _, ?_⟩, fun t => ⟨rfl, rfl⟩⟩
  · have hfilter : fs.filter (fun e => matchesOutputPattern e.name) = [] := by
      rw [List.filter_eq_nil_iff]
      intro e he
      simp [hclean e he]
    unfold runExport removeStaleOutputs
    rw [hfilter]
    show Except.ok (intervals.map _) = _
    congr 1
    apply List.map_congr_left
    intro p hp
    have hsheets := writeSheets_of_readTable p.2 p.2.tables
      (readTable_self p.2.tables (hnd p hp))
    unfold exportInterval
    rw [show p.2.tableNames = p.2.tables.map Table.name from rfl, hsheets]
    rfl
  · rw [List.map_map]
    rfl

/-- C2 witness: exporting the two-table scenario database for interval 30
from an empty directory yields one workbook with the two sheets in table
order, each a verbatim copy with header. -/
theorem run_export_scenario_witness :
    runExport [] [(30, exampleDB)] = .ok [("fangraph_30days.xlsx",
      some ⟨[⟨"hitters", [["name", "hr"], ["a", "3"], ["b", "7"]]⟩,
             ⟨"pitchers", [["name", "era"], ["c", "2.5"]]⟩]⟩)] := by
  have h := run_export_copies_all_tables [] [(30, exampleDB)]
    (by intro e he; cases he) (by intro p hp; fin_cases hp; decide)
  exact h.1.trans rfl

/-- C1 witness: the spec's scenario.  With `Group_1=[1,2,3]`,
`Group_2=[10,20,30]` and rows 0 and 1 selected in the view, the handler
holds selection `[0, 1]` and the means are `1.5` and `15`. -/
theorem grp_avgs_scenario_witness :
    exampleSelected.grp1_avg = .ok (some (3 / 2)) ∧
    exampleSelected.grp2_avg = .ok (some 15) := by
  have h := grp_avgs_are_selection_means exampleSelected exampleDF [0, 1]
    rfl rfl (by decide) (by decide) (by decide)
  refine ⟨h.1.trans ?_, h.2.trans ?_⟩
  · have : specArithMean exampleDF.group1 ([0, 1] : List ℕ).toFinset = 3 / 2 := by
      norm_num [specArithMean, exampleDF, DataFrame.group1, List.toFinset_cons,
        List.toFinset_nil, Finset.sum_insert, Finset.sum_singleton]
    rw [this]
  · have : specArithMean exampleDF.group2 ([0, 1] : List ℕ).toFinset = 15 := by
      norm_num [specArithMean, exampleDF, DataFrame.group2, List.toFinset_cons,
        List.toFinset_nil, Finset.sum_insert, Finset.sum_singleton]
    rw [this]

/-- C3 (code bug): the removal loop cannot remove a stale output file.  Any
regular file matching `fangraph_*days.xlsx` - which is exactly what a prior
run leaves behind - makes `shutil.rmtree` raise `NotADirectoryError`
(`rmtree` removes directory trees, not files), aborting the whole run before
anything is removed or written. -/
theorem stale_output_removal_crashes :
    matchesOutputPattern "fangraph_30days.xlsx" = true ∧
    removeStaleOutputs [⟨"fangraph_30days.xlsx", false⟩] =
      .error .notADirectoryError ∧
    runExport [⟨"fangraph_30days.xlsx", false⟩] [(30, exampleDB)] =
      .error .notADirectoryError := by
  exact ⟨rfl, rfl, rfl⟩

/-- C4 counterexample: a new import does not reset the stored selection set.
After selecting rows 0 and 1 of the three-row dataset and then importing the
one-row `exampleDF2`, `_selection_indexes` still holds `[0, 1]`, which is
not empty and not even a subset of the new dataset's valid row indices
(row 1 does not exist). -/
theorem import_keeps_stale_selection_indexes :
    exampleReimported.selectionIndexes = some [0, 1] ∧
    exampleReimported.dataframe = some exampleDF2 ∧
    exampleDF2.numRows = 1 ∧
    ([0, 1].all fun i => decide (i < exampleDF2.numRows)) = false := by
  exact ⟨rfl, rfl, rfl, rfl⟩

/-- C4 amended: a new import leaves the stored selection set
`_selection_indexes` unchanged (it may keep indices invalid for the new
dataset); but every summary computation starts by recomputing the stored set
from the view selection, which an import empties together with the model, so
in every reachable state the row-index set a selection-changed computation
uses is a subset of the valid row indices of the currently loaded
dataset. -/
theorem computation_uses_valid_row_indexes {s : GuiState} (hs : Reachable s)
    {df : DataFrame} (hdf : s.dataframe = some df) :
    (∀ i ∈ dedupRows s.viewSelectedCells, i < df.numRows) ∧
    (selected_rows_changed s).1.selectionIndexes =
      some (dedupRows s.viewSelectedCells) ∧
    (selected_rows_changed s).1.dataframe = s.dataframe := by
  refine ⟨?_, (selected_rows_changed_fields s).2.2.2,
    (selected_rows_changed_fields s).1⟩
  intro i hi
  have hmem : i ∈ s.viewSelectedCells.map Prod.fst := List.mem_dedup.mp hi
  rcases List.mem_map.mp hmem with ⟨c, hc, hfst⟩
  have hok := reachable_view_cells_ok hs c hc
  unfold cellOk at hok
  rw [hdf] at hok
  rw [← hfst]
  exact hok

/-- C4 witness: in the reachable state with the scenario dataset loaded and
rows 0 and 1 selected, selected row 0 is a valid row of the three-row
dataset and the computation stores exactly the recomputed index set. -/
theorem computation_uses_valid_row_indexes_witness :
    (0 : ℕ) < exampleDF.numRows ∧
    (selected_rows_changed exampleSelected).1.selectionIndexes =
      some (dedupRows exampleSelected.viewSelectedCells) := by
  have h0 : Reachable exampleLoaded := Reachable.initFile "data.csv" exampleDF
  have h1 : Reachable exampleSelected :=
    Reachable.select [(0, 0), (0, 1), (1, 0), (1, 1)] h0 rfl (by decide) rfl
  have h := computation_uses_valid_row_indexes h1 rfl
  exact ⟨h.1 0 (by decide), h.2.1⟩

/-- C5 (code bug): with no dataset loaded, a computation request is not
rejected with the `No data loaded!` notice.  `self._dataframe` is never
initialized, so both `load_dataframe` and `selected_rows_changed` raise
`AttributeError` on a fresh window, showing no dialog; the dialog branch is
reachable only for a stored value that is not a dataframe, and the only
value ever stored is a `pd.read_csv` result. -/
theorem no_data_request_raises_without_notice :
    load_dataframe (mkMainWindow none).1 =
      ((mkMainWindow none).1, some PyErr.attributeError) ∧
    (selected_rows_changed (mkMainWindow none).1).2 =
      some PyErr.attributeError ∧
    (selected_rows_changed (mkMainWindow none).1).1.dialogs = [] ∧
    (mkMainWindow none).1.dialogs = [] ∧
    ∀ o : Option DataFrame, isinstanceDataFrame o = .error .attributeError ∨
      isinstanceDataFrame o = .ok true := by
  refine ⟨rfl, rfl, rfl, rfl, fun o => ?_⟩
  cases o
  · exact Or.inl rfl
  · exact Or.inr rfl

/-- C6 counterexample: a failing CSV read in the import dialog surfaces no
failure notice.  With the scenario dataset loaded, importing a missing file
shows no dialog and the parse exception escapes the handler, with the stored
path already overwritten. -/
theorem failed_import_surfaces_no_notice :
    import_dialog_accepted exampleLoaded "missing.csv"
        (.error "FileNotFoundError") =
      ({ exampleLoaded with file := some "missing.csv" },
        some (.parseError "FileNotFoundError")) ∧
    ({ exampleLoaded with file := some "missing.csv" }).dialogs = [] ∧
    ({ exampleLoaded with file := some "missing.csv" }).dataframe =
      some exampleDF := by
  exact ⟨rfl, rfl, rfl⟩

/-- C6 amended: a failing import leaves the previously loaded dataset (and
every other field except the stored file path) unchanged, but surfaces no
explicit failure notice: the parse exception propagates uncaught out of the
handler. -/
theorem failed_import_keeps_dataset (s : GuiState) (path msg : String) :
    import_dialog_accepted s path (.error msg) =
      ({ s with file := some path }, some (.parseError msg)) := rfl

/-- C7 (code bug): the clear action can leave the selection set non-empty.
`clear_selection` resets the never-read `_selected_rows` instead of
`_selection_indexes` and otherwise relies on a `selectionChanged` emission,
which does not happen when the view selection is already empty - as it is
right after a re-import - so the stale `[0, 1]` survives the click; only the
display text is blanked as claimed. -/
theorem clear_keeps_stale_selection_indexes :
    exampleCleared.selectionIndexes = some [0, 1] ∧
    exampleCleared.displayText = "" ∧
    exampleCleared.selectedRows = [] ∧
    (clear_selection exampleReimported).2 = none := by
  exact ⟨rfl, rfl, rfl, rfl⟩

/-- C8 (code bug): after every selection-changed event the stored selection
is indeed deduplicated - each selected row index appears exactly once even
though the toolkit reports one entry per selected cell - but initially
`_selection_indexes` does not exist at all: the constructor initializes the
never-read `_selected_rows` instead, so reading the selection on a fresh
window raises `AttributeError`; and after a clear action the stored set can
stay non-empty. -/
theorem selection_dedup_but_unset_initially :
    (∀ (s : GuiState) (cells : List (ℕ × ℕ)),
      (selected_rows_changed { s with viewSelectedCells := cells
        }).1.selectionIndexes = some (dedupRows cells) ∧
      (dedupRows cells).Nodup ∧
      ∀ i : ℕ, i ∈ dedupRows cells ↔ i ∈ cells.map Prod.fst) ∧
    (mkMainWindow none).1.selectionIndexes = none ∧
    (mkMainWindow none).1.selection = .error .attributeError ∧
    (mkMainWindow none).1.selectedRows = [] := by
  refine ⟨fun s cells => ⟨?_, List.nodup_dedup _, fun i => List.mem_dedup⟩,
    rfl, rfl, rfl⟩
  exact (selected_rows_changed_fields { s with viewSelectedCells := cells }).2.2.2

/-- C9: the selection-summary operations (selection-changed handling, mean
computation - a pure function of the state - clearing the selection,
displaying results) never modify the loaded dataset; only an import writes
it, replacing it wholesale with the newly read dataframe. -/
theorem summary_ops_preserve_dataframe (s : GuiState)
    (cells : List (ℕ × ℕ)) (t : String) (df : DataFrame) :
    (selected_rows_changed s).1.dataframe = s.dataframe ∧
    (user_select s cells).1.dataframe = s.dataframe ∧
    (clear_selection s).1.dataframe = s.dataframe ∧
    (display_results s t).dataframe = s.dataframe ∧
    (import_data s (.ok df)).1.dataframe = some df := by
  refine ⟨(selected_rows_changed_fields s).1, ?_,
    clear_selection_dataframe s, rfl, rfl⟩
  unfold user_select
  by_cases h : s.connected
  · rw [if_pos h]
    exact (selected_rows_changed_fields { s with viewSelectedCells := cells }).1
  · rw [if_neg h]

/-- C10: with a dataset loaded and an empty selection, a selection-changed
event is not rejected and reports no `no selection` notice: the handler
completes, both group means evaluate to the undefined mean of an empty
series (NaN, modelled as `none`), and the display is replaced with the
report containing those values. -/
theorem empty_selection_reports_nan (s : GuiState) (df : DataFrame)
    (hdf : s.dataframe = some df) (hconn : s.connected = true) :
    (user_select s []).2 = none ∧
    (user_select s []).1.grp1_avg = .ok none ∧
    (user_select s []).1.grp2_avg = .ok none ∧
    (user_select s []).1.displayText = summaryReport ⟨[]⟩ none none ∧
    (user_select s []).1.dialogs = s.dialogs := by
  have hrun : user_select s [] =
      selected_rows_changed { s with viewSelectedCells := ([] : List (ℕ × ℕ)) } := by
    unfold user_select
    rw [if_pos hconn]
  have hok := selected_rows_changed_ok
    { s with viewSelectedCells := ([] : List (ℕ × ℕ)) } df hdf
    (by intro i hi; cases hi)
  rw [hrun, hok]
  exact ⟨rfl, by unfold GuiState.grp1_avg GuiState.selection; rw [hdf]; rfl,
    by unfold GuiState.grp2_avg GuiState.selection; rw [hdf]; rfl, rfl, rfl⟩

/-- C10 witness: a selection-changed event with nothing selected, fired on
the freshly loaded scenario dataset. -/
theorem empty_selection_reports_nan_witness :
    (user_select exampleLoaded []).2 = none ∧
    (user_select exampleLoaded []).1.grp1_avg = .ok none ∧
    (user_select exampleLoaded []).1.grp2_avg = .ok none ∧
    (user_select exampleLoaded []).1.displayText =
      summaryReport ⟨[]⟩ none none ∧
    (user_select exampleLoaded []).1.dialogs = exampleLoaded.dialogs :=
  empty_selection_reports_nan exampleLoaded exampleDF rfl rfl
